import Mathlib

/-!
Verification of the PdfGenerator webhook service against its specification.

The development shallowly embeds the JavaScript sources:
* `src/templateGenerator.js` — `getFieldValue` and the candidate-key
  resolution performed by `generateTemplate`;
* `src/unnamed/part_000` — `extractFormFields` and the `/webhook` handler
  of that variant (envelope unwrap, filename derivation, persist, notify);
* `src/app.js` — `parseJotFormData` and the `/webhook` handler of the
  html-pdf variant.

JavaScript values are modelled by `JSVal`; JS objects and the mutable
record built by the extractors are association lists with JS assignment
semantics (`recSet` updates in place, insertion order preserved, last
write wins).  External collaborators (the PDF renderer, the filesystem
write, the SMTP send, and the builtin `JSON.parse`) are passed in as
explicit result parameters, exactly where the source awaits them.
-/

/-- A JavaScript value as it occurs in webhook payloads: `undefined`,
`null`, a string, a boolean, or a nested object (association list in
insertion order).  Numbers do not occur in the modelled code paths. -/
inductive JSVal where
  | undef
  | null
  | str (s : String)
  | bool (b : Bool)
  | obj (fields : List (String × JSVal))
deriving Repr

/-- JavaScript truthiness for the modelled values. -/
def truthy : JSVal → Bool
  | .undef => false
  | .null => false
  | .str s => s ≠ ""
  | .bool b => b
  | .obj _ => true

/-- JavaScript string coercion, as applied by template literals and
`Array.prototype.join`. -/
def jsToStr : JSVal → String
  | .undef => "undefined"
  | .null => "null"
  | .str s => s
  | .bool b => if b then "true" else "false"
  | .obj _ => "[object Object]"

/-- The JavaScript `a || b` operator. -/
def jsOr (a b : JSVal) : JSVal :=
  if truthy a then a else b

/-- Property lookup on a JS object body (`o[k]`); absent keys give
`undefined`. -/
def objGet (fields : List (String × JSVal)) (k : String) : JSVal :=
  match fields.find? (fun p => p.1 == k) with
  | some p => p.2
  | none => JSVal.undef

/-- Property lookup through a `JSVal` (`v.k`); non-objects give
`undefined` for the properties probed by the modelled code. -/
def jsGet (v : JSVal) (k : String) : JSVal :=
  match v with
  | .obj o => objGet o k
  | _ => JSVal.undef

/-- Test that `needle` is a prefix of `hay` (character lists). -/
def startsWithChars : List Char → List Char → Bool
  | [], _ => true
  | _ :: _, [] => false
  | a :: as, b :: bs => a == b && startsWithChars as bs

/-- Test that `needle` occurs somewhere in `hay` (character lists). -/
def hasSubstrChars (hay needle : List Char) : Bool :=
  match hay with
  | [] => startsWithChars needle []
  | c :: t => startsWithChars needle (c :: t) || hasSubstrChars t needle

/-- JavaScript `String.prototype.includes`. -/
def jsIncludes (s sub : String) : Bool :=
  hasSubstrChars s.data sub.data

/-- The regex replacement `key.replace(/^q\d+_/, '')` from
`extractFormFields`: strip a leading `q`, one or more digits, and an
underscore; otherwise return the key unchanged. -/
def dropQTag (key : String) : String :=
  match key.data with
  | 'q' :: rest =>
    let ds := rest.takeWhile Char.isDigit
    let tail := rest.dropWhile Char.isDigit
    if ds.isEmpty then key
    else
      match tail with
      | '_' :: t => String.mk t
      | _ => key
  | _ => key

/-- JavaScript `String.prototype.trim` (leading and trailing whitespace
removed). -/
def jsTrim (s : String) : String :=
  String.mk (((s.data.dropWhile Char.isWhitespace).reverse.dropWhile Char.isWhitespace).reverse)

/-- JavaScript `Array.prototype.join` on a list of strings. -/
def joinSep (sep : String) : List String → String
  | [] => ""
  | [x] => x
  | x :: y :: t => x ++ sep ++ joinSep sep (y :: t)

/-- Membership in the regex character class `[a-zA-Z0-9]`. -/
def isAsciiAlphaNum (c : Char) : Bool :=
  ('a' ≤ c && c ≤ 'z') || ('A' ≤ c && c ≤ 'Z') || ('0' ≤ c && c ≤ '9')

/-- The filename sanitization `name.replace(/[^a-zA-Z0-9]/g, '')`:
every character outside `[A-Za-z0-9]` is removed. -/
def sanitizeName (s : String) : String :=
  String.mk (s.data.filter isAsciiAlphaNum)

/-- The record built by the extractors: an association list written with
JS object-assignment semantics. -/
abbrev Record := List (String × JSVal)

/-- JS object assignment `r[k] = v`: update the existing entry in place,
or append a fresh one. -/
def recSet : Record → String → JSVal → Record
  | [], k, v => [(k, v)]
  | (k', v') :: rest, k, v =>
    if k' == k then (k', v) :: rest else (k', v') :: recSet rest k v

/-- JS object read `r[k]`; absent keys give `undefined`. -/
def recGet (r : Record) (k : String) : JSVal :=
  match r.find? (fun p => p.1 == k) with
  | some p => p.2
  | none => JSVal.undef

/-- The key list enumerated by `for (const key in v)`: an object's own
keys in insertion order; a string's character indices; nothing for the
other modelled values. -/
def forInEntries : JSVal → List (String × JSVal)
  | .obj o => o
  | .str s => s.data.enum.map (fun p => (toString p.1, JSVal.str (String.mk [p.2])))
  | _ => []

/-! ## templateGenerator.js -/

/-- The value-usability test of `getFieldValue`:
`data[field] !== undefined && data[field] !== null && data[field] !== ''`. -/
def usable : JSVal → Bool
  | .undef => false
  | .null => false
  | .str s => s ≠ ""
  | .bool _ => true
  | .obj _ => true

/-- Function `getFieldValue(data, fieldOptions, defaultValue)` from
`templateGenerator.js`: return the value of the first listed candidate
key whose value is not `undefined`, not `null` and not `''`; otherwise
the default. -/
def getFieldValue (data : String → JSVal) (fieldOptions : List String) (defaultValue : JSVal) : JSVal :=
  match fieldOptions with
  | [] => defaultValue
  | f :: rest => if usable (data f) then data f else getFieldValue data rest defaultValue

/-- Candidate keys for the project manager (from `generateTemplate`). -/
def projectManagerKeys : List String :=
  ["Project Manager", "projectManager", "q135_projectManager", "pmName", "PM Name"]

/-- Candidate keys for the PM email. -/
def pmEmailKeys : List String :=
  ["PM Email", "pmEmail", "q136_pmEmail", "Project Manager Email"]

/-- Candidate keys for the homeowner name. -/
def homeownerNameKeys : List String :=
  ["Homeowner Name", "homeownerName", "yourName", "fullName", "name"]

/-- Candidate keys for the homeowner phone number. -/
def homeownerPhoneKeys : List String :=
  ["Homeowner Phone Number", "homeownerPhoneNumber", "phone", "phoneNumber"]

/-- Candidate keys for the homeowner email. -/
def homeownerEmailKeys : List String :=
  ["Homeowner Email (PLEASE INCLUDE THIS)", "Homeowner Email", "homeownerEmail", "email", "yourEmail"]

/-- Candidate keys for the project address. -/
def projectAddressKeys : List String :=
  ["Project Address", "projectAddress", "address"]

/-- Candidate keys for the per-structure work-item flags, indexed by the
structure name and work kind as they appear in `generateTemplate`. -/
def structureFlagKeys (structure_ work : String) : List String :=
  ["Structures to be worked on >> " ++ structure_ ++ " >> " ++ work,
   String.mk (structure_.data.map (fun c => c.toLower)) ++ work,
   "q50_structuresTo[" ++ structure_ ++ "][" ++ work ++ "]"]

/-- The canonical fields `generateTemplate` resolves before rendering. -/
structure TemplateFields where
  projectManager : JSVal
  pmEmail : JSVal
  homeownerName : JSVal
  homeownerPhone : JSVal
  homeownerEmail : JSVal
  projectAddress : JSVal
  houseRoof : JSVal
  houseGutters : JSVal
  houseWindows : JSVal
  housePaint : JSVal
  shedRoof : JSVal
  shedGutters : JSVal
  shedWindows : JSVal
  shedPaint : JSVal
  garageRoof : JSVal
  garageGutters : JSVal
  garageWindows : JSVal
  garagePaint : JSVal
deriving Repr

/-- The field resolution performed by `generateTemplate`: each canonical
field is `getFieldValue` over its candidate list with its literal
default (`'Project Manager'` and `'Homeowner'` for the name fields,
`''` for the contact fields, `false` for the work-item flags). -/
def resolveTemplateFields (data : String → JSVal) : TemplateFields where
  projectManager := getFieldValue data projectManagerKeys (JSVal.str "Project Manager")
  pmEmail := getFieldValue data pmEmailKeys (JSVal.str "")
  homeownerName := getFieldValue data homeownerNameKeys (JSVal.str "Homeowner")
  homeownerPhone := getFieldValue data homeownerPhoneKeys (JSVal.str "")
  homeownerEmail := getFieldValue data homeownerEmailKeys (JSVal.str "")
  projectAddress := getFieldValue data projectAddressKeys (JSVal.str "")
  houseRoof := getFieldValue data (structureFlagKeys "House" "Roof") (JSVal.bool false)
  houseGutters := getFieldValue data (structureFlagKeys "House" "Gutters") (JSVal.bool false)
  houseWindows := getFieldValue data (structureFlagKeys "House" "Windows") (JSVal.bool false)
  housePaint := getFieldValue data (structureFlagKeys "House" "Paint") (JSVal.bool false)
  shedRoof := getFieldValue data (structureFlagKeys "Shed" "Roof") (JSVal.bool false)
  shedGutters := getFieldValue data (structureFlagKeys "Shed" "Gutters") (JSVal.bool false)
  shedWindows := getFieldValue data (structureFlagKeys "Shed" "Windows") (JSVal.bool false)
  shedPaint := getFieldValue data (structureFlagKeys "Shed" "Paint") (JSVal.bool false)
  garageRoof := getFieldValue data (structureFlagKeys "Garage" "Roof") (JSVal.bool false)
  garageGutters := getFieldValue data (structureFlagKeys "Garage" "Gutters") (JSVal.bool false)
  garageWindows := getFieldValue data (structureFlagKeys "Garage" "Windows") (JSVal.bool false)
  garagePaint := getFieldValue data (structureFlagKeys "Garage" "Paint") (JSVal.bool false)

/-! ## src/unnamed/part_000 — extractFormFields -/

/-- The name-field dispatch test of `extractFormFields`:
`key.includes('_yourName') || key.includes('_name') || key.includes('_fullName')`. -/
def nameKeyTest (k : String) : Bool :=
  jsIncludes k "_yourName" || jsIncludes k "_name" || jsIncludes k "_fullName"

/-- The email-field dispatch test:
`key.includes('_email') || key.includes('_yourEmail')`. -/
def emailKeyTest (k : String) : Bool :=
  jsIncludes k "_email" || jsIncludes k "_yourEmail"

/-- The phone-field dispatch test. -/
def phoneKeyTest (k : String) : Bool :=
  jsIncludes k "_phone" || jsIncludes k "_phoneNumber"

/-- The address-field dispatch test. -/
def addressKeyTest (k : String) : Bool :=
  jsIncludes k "_address" || jsIncludes k "_projectAddress"

/-- The project-manager dispatch test. -/
def pmKeyTest (k : String) : Bool :=
  jsIncludes k "_projectManager" || jsIncludes k "_pmName"

/-- The PM-email dispatch test. -/
def pmEmailKeyTest (k : String) : Bool :=
  jsIncludes k "_pmEmail"

/-- The name branch of `extractFormFields`: a name object with a truthy
`first` or `last` is space-joined and trimmed, with the parts retained
under derived field names; any other value lands in `Homeowner Name`
via `value || ''`. -/
def nameBranch (out : Record) (value : JSVal) : Record :=
  match value with
  | .obj o =>
    if truthy (objGet o "first") || truthy (objGet o "last") then
      let fullName :=
        jsTrim (jsToStr (jsOr (objGet o "first") (JSVal.str "")) ++ " "
          ++ jsToStr (jsOr (objGet o "last") (JSVal.str "")))
      recSet (recSet (recSet out "Homeowner Name" (JSVal.str fullName))
        "Homeowner First Name" (jsOr (objGet o "first") (JSVal.str "")))
        "Homeowner Last Name" (jsOr (objGet o "last") (JSVal.str ""))
    else recSet out "Homeowner Name" (jsOr value (JSVal.str ""))
  | _ => recSet out "Homeowner Name" (jsOr value (JSVal.str ""))

/-- The address branch of `extractFormFields`: the truthy parts among
`addr_line1`, `addr_line2`, `city`, `state`, `postal` are joined with
`', '`; non-object values land in `Project Address` via `value || ''`. -/
def addressBranch (out : Record) (value : JSVal) : Record :=
  match value with
  | .obj o =>
    let parts : List String :=
      (if truthy (objGet o "addr_line1") then [jsToStr (objGet o "addr_line1")] else [])
      ++ (if truthy (objGet o "addr_line2") then [jsToStr (objGet o "addr_line2")] else [])
      ++ (if truthy (objGet o "city") then [jsToStr (objGet o "city")] else [])
      ++ (if truthy (objGet o "state") then [jsToStr (objGet o "state")] else [])
      ++ (if truthy (objGet o "postal") then [jsToStr (objGet o "postal")] else [])
    recSet out "Project Address" (JSVal.str (joinSep ", " parts))
  | _ => recSet out "Project Address" (jsOr value (JSVal.str ""))

/-- One iteration of the `for (const key in formData)` loop of
`extractFormFields` (src/unnamed/part_000): the convention-dispatch
branches, then the verbatim copy `extractedData[key] = value`, then the
de-prefixed copy under `key.replace(/^q\d+_/, '')` when that differs. -/
def processKey (out : Record) (key : String) (value : JSVal) : Record :=
  let out1 :=
    if nameKeyTest key then nameBranch out value
    else if emailKeyTest key then
      recSet (recSet out "Homeowner Email" (jsOr value (JSVal.str "")))
        "Homeowner Email (PLEASE INCLUDE THIS)" (jsOr value (JSVal.str ""))
    else if phoneKeyTest key then
      recSet out "Homeowner Phone Number" (jsOr value (JSVal.str ""))
    else if addressKeyTest key then addressBranch out value
    else if pmKeyTest key then
      recSet (recSet out "Project Manager" (jsOr value (JSVal.str "")))
        "projectManager" (jsOr value (JSVal.str ""))
    else if pmEmailKeyTest key then
      recSet out "PM Email" (jsOr value (JSVal.str ""))
    else out
  let out2 := recSet out1 key value
  let ck := dropQTag key
  if ck ≠ key then recSet out2 ck value else out2

/-- Function `extractFormFields(formData)` from src/unnamed/part_000, as a fold
over the enumerated keys in order. -/
def extractFormFields (formData : List (String × JSVal)) : Record :=
  formData.foldl (fun out kv => processKey out kv.1 kv.2) []

/-- The extractor applied to an arbitrary `JSVal` field set, as
the handler does after envelope unwrapping (a raw string field set is
enumerated by character index, per `for..in` semantics). -/
def extractFromVal (v : JSVal) : Record :=
  extractFormFields (forInEntries v)

/-! ## Webhook handlers -/

/-- The filename segment computation
`data['Homeowner Name'] ? data['Homeowner Name'].replace(/[^a-zA-Z0-9]/g, '') : 'TurnIn'`.
Calling `.replace` on a truthy non-string throws a `TypeError`, which the
handler's `catch` turns into a failure response. -/
def fileNameSeg : JSVal → Except String String
  | .str s => .ok (if s ≠ "" then sanitizeName s else "TurnIn")
  | .undef => .ok "TurnIn"
  | .null => .ok "TurnIn"
  | .bool b => if b then .error "TypeError" else .ok "TurnIn"
  | .obj _ => .error "TypeError"

/-- The persisted filename
`` `Gates_TurnIn_${homeownerName}_${timestamp}.pdf` ``. -/
def fileNameFor (v : JSVal) (ts : Nat) : Except String String :=
  (fileNameSeg v).map (fun seg => "Gates_TurnIn_" ++ seg ++ "_" ++ toString ts ++ ".pdf")

/-- Observable outcome of one webhook request: HTTP status, success
flag of the response body, the filename written to the uploads
directory (if any), and whether the notification email went out. -/
structure HandlerOutcome where
  status : Nat
  success : Bool
  written : Option String
  emailSent : Bool
deriving Repr, DecidableEq

/-- Splitting a key on underscores (JS split semantics). -/
def splitUS : List Char → List (List Char)
  | [] => [[]]
  | c :: t =>
    let r := splitUS t
    if c == '_' then [] :: r
    else
      match r with
      | [] => [[c]]
      | h :: t2 => (c :: h) :: t2

/-- The key cleaning of `parseJotFormData` (src/app.js):
`key.includes('_') ? key.split('_').slice(1).join('_') : key`. -/
def cleanKeyApp (key : String) : String :=
  if jsIncludes key "_" then joinSep "_" (((splitUS key.data).drop 1).map String.mk)
  else key

/-- Function `parseJotFormData(webhookData)` from src/app.js: a truthy
`rawRequest` is re-keyed through `cleanKeyApp`; else a truthy
`formData` wrapper is used as is; else the body itself is the field
set. -/
def parseJotFormData (webhookData : JSVal) : JSVal :=
  if truthy (jsGet webhookData "rawRequest") then
    JSVal.obj ((forInEntries (jsGet webhookData "rawRequest")).foldl
      (fun acc kv => recSet acc (cleanKeyApp kv.1) kv.2) [])
  else if truthy (jsGet webhookData "formData") then jsGet webhookData "formData"
  else webhookData

/-- The `/webhook` handler of src/app.js.  The render, filesystem and
email collaborators are passed as explicit results; every `throw`
inside the `try` block lands in the `catch` and produces the 500
failure response.  The email step is awaited inside the `try` block,
after the file write. -/
def appWebhook (body : JSVal) (renderResult : Except String Unit)
    (writeResult : Except String Unit) (enableEmail : Bool)
    (emailResult : Except String Unit) (ts : Nat) : HandlerOutcome :=
  let formData := parseJotFormData body
  if truthy formData = false then
    { status := 400, success := false, written := none, emailSent := false }
  else
    match renderResult with
    | .error _ => { status := 500, success := false, written := none, emailSent := false }
    | .ok _ =>
      match fileNameFor (jsGet formData "Homeowner Name") ts with
      | .error _ => { status := 500, success := false, written := none, emailSent := false }
      | .ok fileName =>
        match writeResult with
        | .error _ => { status := 500, success := false, written := none, emailSent := false }
        | .ok _ =>
          if enableEmail && truthy (jsGet formData "Homeowner Email (PLEASE INCLUDE THIS)") then
            match emailResult with
            | .error _ => { status := 500, success := false, written := some fileName, emailSent := false }
            | .ok _ => { status := 200, success := true, written := some fileName, emailSent := true }
          else { status := 200, success := true, written := some fileName, emailSent := false }

/-- Envelope unwrapping of the src/unnamed/part_000 handler:
`rawRequestStr = req.body.rawRequest || '{}'`, then `JSON.parse`; on a
parse failure the raw value itself is used as the field set.  The
builtin `JSON.parse` is supplied as an oracle: `some v` for a
successful parse, `none` for a thrown `SyntaxError`. -/
def part0FormData (rawRequestVal : JSVal) (parsed : Option JSVal) : JSVal :=
  let rawRequestStr := jsOr rawRequestVal (JSVal.str "\x7b\x7d")
  match parsed with
  | some v => v
  | none => rawRequestStr

/-- The `/webhook` handler of src/unnamed/part_000: unwrap the
envelope, extract fields, render, derive the filename, persist, then
optionally notify; any failure inside the `try` block yields the 500
response. -/
def part0Webhook (body : JSVal) (parsed : Option JSVal)
    (renderResult writeResult : Except String Unit) (enableEmail : Bool)
    (emailResult : Except String Unit) (ts : Nat) : HandlerOutcome :=
  let formData := part0FormData (jsGet body "rawRequest") parsed
  let extractedData := extractFromVal formData
  match renderResult with
  | .error _ => { status := 500, success := false, written := none, emailSent := false }
  | .ok _ =>
    match fileNameFor (recGet extractedData "Homeowner Name") ts with
    | .error _ => { status := 500, success := false, written := none, emailSent := false }
    | .ok fileName =>
      match writeResult with
      | .error _ => { status := 500, success := false, written := none, emailSent := false }
      | .ok _ =>
        if enableEmail && truthy (recGet extractedData "Homeowner Email") then
          match emailResult with
          | .error _ => { status := 500, success := false, written := some fileName, emailSent := false }
          | .ok _ => { status := 200, success := true, written := some fileName, emailSent := true }
        else { status := 200, success := true, written := some fileName, emailSent := false }

/-! ## Record lemmas -/

/-- Reading back the key just assigned returns the assigned value. -/
theorem recGet_set_self (r : Record) (k : String) (v : JSVal) :
    recGet (recSet r k v) k = v := by
  induction r with
  | nil => simp [recSet, recGet, List.find?]
  | cons hd t ih =>
    obtain ⟨k', v'⟩ := hd
    cases h : (k' == k) with
    | true => simp [recSet, recGet, List.find?, h]
    | false =>
      simp only [recSet, h, Bool.false_eq_true, if_false]
      simpa [recGet, List.find?, h] using ih

/-- Assigning one key leaves every other key's value unchanged. -/
theorem recGet_set_ne (r : Record) (k' k : String) (v : JSVal) (h : k' ≠ k) :
    recGet (recSet r k' v) k = recGet r k := by
  have hb : (k' == k) = false := by simpa using h
  induction r with
  | nil => simp [recSet, recGet, List.find?, hb]
  | cons hd t ih =>
    obtain ⟨a, b⟩ := hd
    cases ha : (a == k') with
    | true =>
      have hak : (a == k) = false := by
        have : a = k' := by simpa using ha
        subst this
        simpa using h
      simp [recSet, recGet, List.find?, ha, hak]
    | false =>
      simp only [recSet, ha, Bool.false_eq_true, if_false]
      cases hak : (a == k) with
      | true => simp [recGet, List.find?, hak]
      | false => simpa [recGet, List.find?, hak] using ih

/-- Processing a submission with one extra trailing key is processing
the front, then one `processKey` step for the trailing key. -/
theorem extractFormFields_append (l : List (String × JSVal)) (k : String) (v : JSVal) :
    extractFormFields (l ++ [(k, v)]) = processKey (extractFormFields l) k v := by
  simp [extractFormFields, List.foldl_append]

/-! ## getFieldValue lemmas -/

/-- When no candidate key holds a usable value, `getFieldValue` returns
its default. -/
theorem getFieldValue_of_no_usable (data : String → JSVal) (d : JSVal) :
    ∀ opts : List String, (∀ f ∈ opts, usable (data f) = false) →
      getFieldValue data opts d = d
  | [], _ => rfl
  | f :: rest, h => by
    have hf : usable (data f) = false := h f (List.mem_cons_self f rest)
    have hrest := getFieldValue_of_no_usable data d rest
      (fun g hg => h g (List.mem_cons_of_mem f hg))
    simp [getFieldValue, hf, hrest]

/-- The lookup `getFieldValue` is the value at the first candidate satisfying the
usability test, or the default when none does. -/
theorem getFieldValue_eq_find (data : String → JSVal) (d : JSVal) :
    ∀ opts : List String,
      getFieldValue data opts d
        = (((opts.find? (fun f => usable (data f))).map data).getD d)
  | [] => rfl
  | f :: rest => by
    cases hf : usable (data f) with
    | true => simp [getFieldValue, List.find?, hf]
    | false => simp [getFieldValue, List.find?, hf, getFieldValue_eq_find data d rest]

/-- A list containing an element satisfying the predicate has a
`find?` hit, which itself satisfies the predicate. -/
theorem find?_eq_some_of_mem {α : Type} (p : α → Bool) :
    ∀ (l : List α) (a : α), a ∈ l → p a = true →
      ∃ w, l.find? p = some w ∧ p w = true
  | [], a, ha, _ => absurd ha (List.not_mem_nil a)
  | x :: t, a, ha, hpa => by
    cases hx : p x with
    | true => exact ⟨x, by simp [List.find?, hx], hx⟩
    | false =>
      have hat : a ∈ t := by
        rcases List.mem_cons.mp ha with h | h
        · subst h; rw [hx] at hpa; exact absurd hpa (by simp)
        · exact h
      obtain ⟨w, hw, hpw⟩ := find?_eq_some_of_mem p t a hat hpa
      exact ⟨w, by simp [List.find?, hx, hw], hpw⟩

/-! ## Claims -/

/-- Claim C1: for every field-data map and ordered candidate list, when
two candidate keys are present with values that are not undefined, not
null and not the empty string, `getFieldValue` returns the value of the
earliest-listed such candidate (`find?` over the ordered list).  The
data map is a pure function, so the result cannot depend on any
iteration order of the map. -/
theorem claim_C1_earliest_usable_candidate_wins (data : String → JSVal) (d : JSVal)
    (pre mid post : List String) (a b : String)
    (ha : usable (data a) = true) (hb : usable (data b) = true) :
    ∃ w, (pre ++ a :: mid ++ b :: post).find? (fun f => usable (data f)) = some w
      ∧ usable (data w) = true
      ∧ getFieldValue data (pre ++ a :: mid ++ b :: post) d = data w := by
  obtain ⟨w, hw, hpw⟩ := find?_eq_some_of_mem (fun f => usable (data f))
    (pre ++ a :: mid ++ b :: post) a (by simp) ha
  refine ⟨w, hw, hpw, ?_⟩
  rw [getFieldValue_eq_find, hw]
  rfl

/-- Claim C1 witness: with candidates `first`, `second`, `third` where
only `second` and `third` are usable, the resolved value is the one at
`second`. -/
theorem claim_C1_earliest_usable_candidate_wins_witness :
    ∃ w, (["first"] ++ "second" :: [] ++ "third" :: []).find?
        (fun f => usable ((fun k => if k = "second" then JSVal.str "2"
          else if k = "third" then JSVal.str "3" else JSVal.undef) f)) = some w
      ∧ usable ((fun k => if k = "second" then JSVal.str "2"
          else if k = "third" then JSVal.str "3" else JSVal.undef) w) = true
      ∧ getFieldValue (fun k => if k = "second" then JSVal.str "2"
          else if k = "third" then JSVal.str "3" else JSVal.undef)
          (["first"] ++ "second" :: [] ++ "third" :: []) (JSVal.str "") =
          (fun k => if k = "second" then JSVal.str "2"
            else if k = "third" then JSVal.str "3" else JSVal.undef) w :=
  claim_C1_earliest_usable_candidate_wins
    (fun k => if k = "second" then JSVal.str "2"
      else if k = "third" then JSVal.str "3" else JSVal.undef)
    (JSVal.str "") ["first"] [] [] "second" "third" (by decide) (by decide)

/-- Claim C2: for every field-data map, each canonical field whose
candidate keys all lack a usable value resolves to its documented
default — `'Project Manager'` and `'Homeowner'` for the name fields,
`''` for the contact fields, `false` for the per-structure work-item
flags — and these defaults are never the absent/undefined marker. -/
theorem claim_C2_defaults_when_no_candidate (data : String → JSVal) :
    ((∀ f ∈ projectManagerKeys, usable (data f) = false) →
      (resolveTemplateFields data).projectManager = JSVal.str "Project Manager")
    ∧ ((∀ f ∈ pmEmailKeys, usable (data f) = false) →
      (resolveTemplateFields data).pmEmail = JSVal.str "")
    ∧ ((∀ f ∈ homeownerNameKeys, usable (data f) = false) →
      (resolveTemplateFields data).homeownerName = JSVal.str "Homeowner")
    ∧ ((∀ f ∈ homeownerPhoneKeys, usable (data f) = false) →
      (resolveTemplateFields data).homeownerPhone = JSVal.str "")
    ∧ ((∀ f ∈ homeownerEmailKeys, usable (data f) = false) →
      (resolveTemplateFields data).homeownerEmail = JSVal.str "")
    ∧ ((∀ f ∈ projectAddressKeys, usable (data f) = false) →
      (resolveTemplateFields data).projectAddress = JSVal.str "")
    ∧ ((∀ f ∈ structureFlagKeys "House" "Roof", usable (data f) = false) →
      (resolveTemplateFields data).houseRoof = JSVal.bool false)
    ∧ ((∀ f ∈ structureFlagKeys "House" "Gutters", usable (data f) = false) →
      (resolveTemplateFields data).houseGutters = JSVal.bool false)
    ∧ ((∀ f ∈ structureFlagKeys "House" "Windows", usable (data f) = false) →
      (resolveTemplateFields data).houseWindows = JSVal.bool false)
    ∧ ((∀ f ∈ structureFlagKeys "House" "Paint", usable (data f) = false) →
      (resolveTemplateFields data).housePaint = JSVal.bool false)
    ∧ ((∀ f ∈ structureFlagKeys "Shed" "Roof", usable (data f) = false) →
      (resolveTemplateFields data).shedRoof = JSVal.bool false)
    ∧ ((∀ f ∈ structureFlagKeys "Shed" "Gutters", usable (data f) = false) →
      (resolveTemplateFields data).shedGutters = JSVal.bool false)
    ∧ ((∀ f ∈ structureFlagKeys "Shed" "Windows", usable (data f) = false) →
      (resolveTemplateFields data).shedWindows = JSVal.bool false)
    ∧ ((∀ f ∈ structureFlagKeys "Shed" "Paint", usable (data f) = false) →
      (resolveTemplateFields data).shedPaint = JSVal.bool false)
    ∧ ((∀ f ∈ structureFlagKeys "Garage" "Roof", usable (data f) = false) →
      (resolveTemplateFields data).garageRoof = JSVal.bool false)
    ∧ ((∀ f ∈ structureFlagKeys "Garage" "Gutters", usable (data f) = false) →
      (resolveTemplateFields data).garageGutters = JSVal.bool false)
    ∧ ((∀ f ∈ structureFlagKeys "Garage" "Windows", usable (data f) = false) →
      (resolveTemplateFields data).garageWindows = JSVal.bool false)
    ∧ ((∀ f ∈ structureFlagKeys "Garage" "Paint", usable (data f) = false) →
      (resolveTemplateFields data).garagePaint = JSVal.bool false)
    ∧ (JSVal.str "Project Manager" ≠ JSVal.undef ∧ JSVal.str "Homeowner" ≠ JSVal.undef
      ∧ JSVal.str "" ≠ JSVal.undef ∧ JSVal.bool false ≠ JSVal.undef) := by
  refine ⟨?_, ?_, ?_, ?_, ?_, ?_, ?_, ?_, ?_, ?_, ?_, ?_, ?_, ?_, ?_, ?_, ?_, ?_, ?_⟩
  all_goals first
    | exact fun h => getFieldValue_of_no_usable data _ _ h
    | exact ⟨fun h => JSVal.noConfusion h, fun h => JSVal.noConfusion h,
        fun h => JSVal.noConfusion h, fun h => JSVal.noConfusion h⟩

/-- Claim C2 witness: on the everywhere-undefined submission every
canonical field resolves to its documented default. -/
theorem claim_C2_defaults_when_no_candidate_witness :
    (resolveTemplateFields (fun _ => JSVal.undef)).projectManager = JSVal.str "Project Manager"
    ∧ (resolveTemplateFields (fun _ => JSVal.undef)).pmEmail = JSVal.str ""
    ∧ (resolveTemplateFields (fun _ => JSVal.undef)).homeownerName = JSVal.str "Homeowner"
    ∧ (resolveTemplateFields (fun _ => JSVal.undef)).homeownerPhone = JSVal.str ""
    ∧ (resolveTemplateFields (fun _ => JSVal.undef)).homeownerEmail = JSVal.str ""
    ∧ (resolveTemplateFields (fun _ => JSVal.undef)).projectAddress = JSVal.str ""
    ∧ (resolveTemplateFields (fun _ => JSVal.undef)).houseRoof = JSVal.bool false
    ∧ (resolveTemplateFields (fun _ => JSVal.undef)).houseGutters = JSVal.bool false
    ∧ (resolveTemplateFields (fun _ => JSVal.undef)).houseWindows = JSVal.bool false
    ∧ (resolveTemplateFields (fun _ => JSVal.undef)).housePaint = JSVal.bool false
    ∧ (resolveTemplateFields (fun _ => JSVal.undef)).shedRoof = JSVal.bool false
    ∧ (resolveTemplateFields (fun _ => JSVal.undef)).shedGutters = JSVal.bool false
    ∧ (resolveTemplateFields (fun _ => JSVal.undef)).shedWindows = JSVal.bool false
    ∧ (resolveTemplateFields (fun _ => JSVal.undef)).shedPaint = JSVal.bool false
    ∧ (resolveTemplateFields (fun _ => JSVal.undef)).garageRoof = JSVal.bool false
    ∧ (resolveTemplateFields (fun _ => JSVal.undef)).garageGutters = JSVal.bool false
    ∧ (resolveTemplateFields (fun _ => JSVal.undef)).garageWindows = JSVal.bool false
    ∧ (resolveTemplateFields (fun _ => JSVal.undef)).garagePaint = JSVal.bool false := by
  have h := claim_C2_defaults_when_no_candidate (fun _ => JSVal.undef)
  exact ⟨h.1 (by decide), h.2.1 (by decide), h.2.2.1 (by decide), h.2.2.2.1 (by decide),
    h.2.2.2.2.1 (by decide), h.2.2.2.2.2.1 (by decide), h.2.2.2.2.2.2.1 (by decide),
    h.2.2.2.2.2.2.2.1 (by decide), h.2.2.2.2.2.2.2.2.1 (by decide),
    h.2.2.2.2.2.2.2.2.2.1 (by decide), h.2.2.2.2.2.2.2.2.2.2.1 (by decide),
    h.2.2.2.2.2.2.2.2.2.2.2.1 (by decide), h.2.2.2.2.2.2.2.2.2.2.2.2.1 (by decide),
    h.2.2.2.2.2.2.2.2.2.2.2.2.2.1 (by decide), h.2.2.2.2.2.2.2.2.2.2.2.2.2.2.1 (by decide),
    h.2.2.2.2.2.2.2.2.2.2.2.2.2.2.2.1 (by decide),
    h.2.2.2.2.2.2.2.2.2.2.2.2.2.2.2.2.1 (by decide),
    h.2.2.2.2.2.2.2.2.2.2.2.2.2.2.2.2.2.1 (by decide)⟩

/-- Claim C5: the persisted filename is the fixed prefix, the homeowner
name with every character outside `[A-Za-z0-9]` removed (or the
fallback segment `TurnIn` when no homeowner name resolved), and the
millisecond timestamp, joined by underscores with a `.pdf` extension;
sanitizing `O'Brien 99!` gives exactly `OBrien99`. -/
theorem claim_C5_filename_shape (s : String) (ts : Nat) (h : s ≠ "") :
    fileNameFor (JSVal.str s) ts
      = Except.ok ("Gates_TurnIn_" ++ sanitizeName s ++ "_" ++ toString ts ++ ".pdf")
    ∧ fileNameFor JSVal.undef ts
      = Except.ok ("Gates_TurnIn_TurnIn_" ++ toString ts ++ ".pdf")
    ∧ sanitizeName "O\x27Brien 99!" = "OBrien99" := by
  refine ⟨?_, rfl, by decide⟩
  simp [fileNameFor, fileNameSeg, Except.map, h]

/-- Claim C5 witness: homeowner name `O'Brien 99!` at timestamp
1712345678901 persists as `Gates_TurnIn_OBrien99_1712345678901.pdf`. -/
theorem claim_C5_filename_shape_witness :
    fileNameFor (JSVal.str "O\x27Brien 99!") 1712345678901
      = Except.ok "Gates_TurnIn_OBrien99_1712345678901.pdf" :=
  (claim_C5_filename_shape "O\x27Brien 99!" 1712345678901 (by decide)).1

/-- Claim C7: when the renderer fails, the handler of src/app.js
returns a single failure response, writes no file for the request, and
sends no notification, for every body, write result, email
configuration and timestamp. -/
theorem claim_C7_render_failure_aborts (body : JSVal) (e : String)
    (writeResult : Except String Unit) (enableEmail : Bool)
    (emailResult : Except String Unit) (ts : Nat) :
    (appWebhook body (.error e) writeResult enableEmail emailResult ts).success = false
    ∧ (appWebhook body (.error e) writeResult enableEmail emailResult ts).written = none
    ∧ (appWebhook body (.error e) writeResult enableEmail emailResult ts).emailSent = false
    ∧ ((appWebhook body (.error e) writeResult enableEmail emailResult ts).status = 400
      ∨ (appWebhook body (.error e) writeResult enableEmail emailResult ts).status = 500) := by
  unfold appWebhook
  cases h : truthy (parseJotFormData body) with
  | false => simp [h]
  | true => simp [h]

/-- A request body whose `formData` wrapper carries a homeowner name
and the legacy homeowner email key, used to exercise the notification
path of the src/app.js handler. -/
def c6Body : JSVal :=
  JSVal.obj [("formData", JSVal.obj
    [("Homeowner Name", JSVal.str "Jane Doe"),
     ("Homeowner Email (PLEASE INCLUDE THIS)", JSVal.str "jane@example.com")])]

/-- Claim C6 counterexample: with email enabled and the artifact
already durably written, a notification failure does NOT leave the
success response — the `await sendEmailNotification` sits inside the
`try` block, so the `catch` sends the 500 failure response (while the
file stays on disk). -/
theorem claim_C6_counterexample :
    (appWebhook c6Body (.ok ()) (.ok ()) true (.error "SMTP connection refused") 1700000000000).written
      = some "Gates_TurnIn_JaneDoe_1700000000000.pdf"
    ∧ (appWebhook c6Body (.ok ()) (.ok ()) true (.error "SMTP connection refused") 1700000000000).success
      = false
    ∧ (appWebhook c6Body (.ok ()) (.ok ()) true (.error "SMTP connection refused") 1700000000000).status
      = 500 :=
  ⟨rfl, rfl, rfl⟩

/-- Claim C6 amended: when the artifact has been durably written and
the notification then fails, the handler responds with the 500 failure
response (not success); the artifact itself is not reverted — the
written file remains — and no notification is recorded as sent. -/
theorem claim_C6_amended_email_failure_fails_response (body : JSVal) (e : String)
    (ts : Nat) (fn : String)
    (hfd : truthy (parseJotFormData body) = true)
    (hfn : fileNameFor (jsGet (parseJotFormData body) "Homeowner Name") ts = Except.ok fn)
    (hmail : truthy (jsGet (parseJotFormData body) "Homeowner Email (PLEASE INCLUDE THIS)") = true) :
    appWebhook body (.ok ()) (.ok ()) true (.error e) ts
      = { status := 500, success := false, written := some fn, emailSent := false } := by
  simp only [appWebhook]
  rw [hfd, hfn]
  simp [hmail]

/-- Claim C6 amended witness: a concrete request where the email send
fails after the write; the response is the 500 failure and the file
remains recorded as written. -/
theorem claim_C6_amended_email_failure_fails_response_witness :
    appWebhook c6Body (.ok ()) (.ok ()) true (.error "SMTP connection refused") 1700000000000
      = { status := 500, success := false,
          written := some "Gates_TurnIn_JaneDoe_1700000000000.pdf", emailSent := false } :=
  claim_C6_amended_email_failure_fails_response c6Body "SMTP connection refused"
    1700000000000 "Gates_TurnIn_JaneDoe_1700000000000.pdf" rfl rfl rfl

/-- Claim C8: when the wrapped raw-request field is a non-empty string
that `JSON.parse` rejects (the parse oracle returns `none`), the
part_000 handler does not fail the request: the raw string itself
becomes the field set and processing continues to the success
response. -/
theorem claim_C8_unparsable_envelope_falls_back (raw : String) (ts : Nat) (fn : String)
    (hraw : raw ≠ "")
    (hfn : fileNameFor (recGet (extractFromVal (JSVal.str raw)) "Homeowner Name") ts
      = Except.ok fn) :
    part0FormData (JSVal.str raw) none = JSVal.str raw
    ∧ part0Webhook (JSVal.obj [("rawRequest", JSVal.str raw)]) none
        (.ok ()) (.ok ()) false (.ok ()) ts
      = { status := 200, success := true, written := some fn, emailSent := false } := by
  have htr : truthy (JSVal.str raw) = true := by simp [truthy, hraw]
  constructor
  · simp [part0FormData, jsOr, htr]
  · simp only [part0Webhook]
    have hfd : part0FormData (jsGet (JSVal.obj [("rawRequest", JSVal.str raw)]) "rawRequest") none
        = JSVal.str raw := by
      simp [part0FormData, jsGet, objGet, List.find?, jsOr, htr]
    rw [hfd, hfn]
    simp

/-- Claim C8 witness: the invalid-JSON raw request `oops not json`
is used verbatim as the field set and the request still succeeds. -/
theorem claim_C8_unparsable_envelope_falls_back_witness :
    part0FormData (JSVal.str "oops not json") none = JSVal.str "oops not json"
    ∧ part0Webhook (JSVal.obj [("rawRequest", JSVal.str "oops not json")]) none
        (.ok ()) (.ok ()) false (.ok ()) 7
      = { status := 200, success := true,
          written := some "Gates_TurnIn_TurnIn_7.pdf", emailSent := false } :=
  claim_C8_unparsable_envelope_falls_back "oops not json" 7 "Gates_TurnIn_TurnIn_7.pdf"
    (by decide) rfl

/-- Applying the fallback `x || ''` to strings keeps the string: a non-empty string is
truthy, and the empty string falls back to `''` which equals it. -/
theorem jsOr_str_empty (x : String) : jsOr (JSVal.str x) (JSVal.str "") = JSVal.str x := by
  by_cases h : x = "" <;> simp [jsOr, truthy, h]

/-- Claim C9 counterexample: in
`[q1_yourName: "Jane", q2_Homeowner Name: "Evil"]` the convention
branch first resolves `Homeowner Name` to `Jane`, but the de-prefixed
passthrough copy of the later key `q2_Homeowner Name` overwrites it
with `Evil` — the candidate resolution does not take precedence. -/
theorem claim_C9_counterexample :
    recGet (extractFormFields
        [("q1_yourName", JSVal.str "Jane"), ("q2_Homeowner Name", JSVal.str "Evil")])
      "Homeowner Name" = JSVal.str "Evil"
    ∧ recGet (extractFormFields
        [("q1_yourName", JSVal.str "Jane"), ("q2_Homeowner Name", JSVal.str "Evil")])
      "Homeowner Name" ≠ JSVal.str "Jane" := by
  refine ⟨rfl, fun h => ?_⟩
  injection h with h2
  exact absurd h2 (by decide)

/-- Claim C9 amended: every raw key is written into the record
verbatim and, when index-prefixed, under its de-prefixed form, and for
the last-enumerated key these copies survive into the output; but the
convention-branch resolution only precedes the same key's own
passthrough — a verbatim or de-prefixed copy of a later raw key can
overwrite a canonical field, because writes are applied in enumeration
order with last write wins. -/
theorem claim_C9_amended_passthrough_copies (pre : List (String × JSVal)) (k : String) (v : JSVal) :
    recGet (extractFormFields (pre ++ [(k, v)])) k = v
    ∧ (dropQTag k ≠ k → recGet (extractFormFields (pre ++ [(k, v)])) (dropQTag k) = v) := by
  rw [extractFormFields_append]
  simp only [processKey]
  by_cases hck : dropQTag k = k
  · rw [if_neg (not_not_intro hck)]
    exact ⟨recGet_set_self _ _ _, fun hcon => absurd hck hcon⟩
  · rw [if_pos hck]
    refine ⟨?_, fun _ => recGet_set_self _ _ _⟩
    rw [recGet_set_ne _ _ _ _ hck]
    exact recGet_set_self _ _ _

/-- Claim C9 amended witness: the trailing key `q7_customField` lands
in the output both verbatim and de-prefixed as `customField`. -/
theorem claim_C9_amended_passthrough_copies_witness :
    recGet (extractFormFields [("a", JSVal.str "x"), ("q7_customField", JSVal.str "hello")])
      "q7_customField" = JSVal.str "hello"
    ∧ recGet (extractFormFields [("a", JSVal.str "x"), ("q7_customField", JSVal.str "hello")])
      "customField" = JSVal.str "hello" := by
  have h := claim_C9_amended_passthrough_copies [("a", JSVal.str "x")] "q7_customField"
    (JSVal.str "hello")
  exact ⟨h.1, h.2 (by decide)⟩

/-- Claim C10 counterexample: in
`[q1_email: "a@b.c", q2_Homeowner Email: "x@y.z"]` the email
convention key resolves both email fields to `a@b.c`, but the
de-prefixed passthrough copy of the later key overwrites only
`Homeowner Email`, so the two email keys disagree in the output. -/
theorem claim_C10_counterexample :
    recGet (extractFormFields
        [("q1_email", JSVal.str "a@b.c"), ("q2_Homeowner Email", JSVal.str "x@y.z")])
      "Homeowner Email" = JSVal.str "x@y.z"
    ∧ recGet (extractFormFields
        [("q1_email", JSVal.str "a@b.c"), ("q2_Homeowner Email", JSVal.str "x@y.z")])
      "Homeowner Email (PLEASE INCLUDE THIS)" = JSVal.str "a@b.c"
    ∧ recGet (extractFormFields
        [("q1_email", JSVal.str "a@b.c"), ("q2_Homeowner Email", JSVal.str "x@y.z")])
      "Homeowner Email"
      ≠ recGet (extractFormFields
        [("q1_email", JSVal.str "a@b.c"), ("q2_Homeowner Email", JSVal.str "x@y.z")])
      "Homeowner Email (PLEASE INCLUDE THIS)" := by
  refine ⟨rfl, rfl, fun h => ?_⟩
  injection h with h2
  exact absurd h2 (by decide)

/-- Claim C10 amended: when the last-enumerated key matches the email
conventions (and not the name conventions, which are tested first),
and neither the key itself nor its de-prefixed form collides with the
two email labels, the output maps both `Homeowner Email` and
`Homeowner Email (PLEASE INCLUDE THIS)` to the same value `v || ''`;
without the no-collision proviso a later passthrough copy can make the
two keys disagree. -/
theorem claim_C10_amended_email_keys_agree (pre : List (String × JSVal)) (k : String) (v : JSVal)
    (hk : emailKeyTest k = true) (hname : nameKeyTest k = false)
    (hk1 : k ≠ "Homeowner Email") (hk2 : k ≠ "Homeowner Email (PLEASE INCLUDE THIS)")
    (hc1 : dropQTag k ≠ "Homeowner Email")
    (hc2 : dropQTag k ≠ "Homeowner Email (PLEASE INCLUDE THIS)") :
    recGet (extractFormFields (pre ++ [(k, v)])) "Homeowner Email" = jsOr v (JSVal.str "")
    ∧ recGet (extractFormFields (pre ++ [(k, v)])) "Homeowner Email (PLEASE INCLUDE THIS)"
      = jsOr v (JSVal.str "") := by
  rw [extractFormFields_append]
  simp only [processKey, hname, hk, Bool.false_eq_true, if_false, if_true]
  by_cases hck : dropQTag k = k
  · rw [if_neg (not_not_intro hck)]
    constructor
    · rw [recGet_set_ne _ _ _ _ hk1,
        recGet_set_ne _ _ _ _ (by decide :
          ("Homeowner Email (PLEASE INCLUDE THIS)" : String) ≠ "Homeowner Email")]
      exact recGet_set_self _ _ _
    · rw [recGet_set_ne _ _ _ _ hk2]
      exact recGet_set_self _ _ _
  · rw [if_pos hck]
    constructor
    · rw [recGet_set_ne _ _ _ _ hc1, recGet_set_ne _ _ _ _ hk1,
        recGet_set_ne _ _ _ _ (by decide :
          ("Homeowner Email (PLEASE INCLUDE THIS)" : String) ≠ "Homeowner Email")]
      exact recGet_set_self _ _ _
    · rw [recGet_set_ne _ _ _ _ hc2, recGet_set_ne _ _ _ _ hk2]
      exact recGet_set_self _ _ _

/-- Claim C10 amended witness: the single email-convention key
`q4_email` maps both email labels to `a@b.c`. -/
theorem claim_C10_amended_email_keys_agree_witness :
    recGet (extractFormFields [("q4_email", JSVal.str "a@b.c")]) "Homeowner Email"
      = JSVal.str "a@b.c"
    ∧ recGet (extractFormFields [("q4_email", JSVal.str "a@b.c")])
      "Homeowner Email (PLEASE INCLUDE THIS)" = JSVal.str "a@b.c" :=
  claim_C10_amended_email_keys_agree [] "q4_email" (JSVal.str "a@b.c")
    (by decide) (by decide) (by decide) (by decide) (by decide) (by decide)

/-- Claim C3 counterexample: a submission containing the name-object
key `q1_yourName: ⟨first: Jane, last: Doe⟩` and the later raw key
`Homeowner Name: Evil` ends with `Homeowner Name = Evil`, not the
space-joined `Jane Doe` — the verbatim passthrough copy of the later
key overwrites the canonical value. -/
theorem claim_C3_counterexample :
    recGet (extractFormFields
        [("q1_yourName", JSVal.obj [("first", JSVal.str "Jane"), ("last", JSVal.str "Doe")]),
         ("Homeowner Name", JSVal.str "Evil")])
      "Homeowner Name" = JSVal.str "Evil"
    ∧ recGet (extractFormFields
        [("q1_yourName", JSVal.obj [("first", JSVal.str "Jane"), ("last", JSVal.str "Doe")]),
         ("Homeowner Name", JSVal.str "Evil")])
      "Homeowner Name" ≠ JSVal.str "Jane Doe" := by
  refine ⟨rfl, fun h => ?_⟩
  injection h with h2
  exact absurd h2 (by decide)

/-- Claim C3 amended: when the last-enumerated key matches the name
conventions, carries an object with string `first`/`last` parts at
least one of which is non-empty, and neither the key nor its
de-prefixed form collides with the three name labels, the output has
`Homeowner Name` equal to the space-joined trimmed concatenation and
retains the parts under `Homeowner First Name`/`Homeowner Last Name`;
without the last-key/no-collision proviso a later key's passthrough
copy can overwrite these fields. -/
theorem claim_C3_amended_name_object_joined (pre : List (String × JSVal)) (k f l : String)
    (o : List (String × JSVal))
    (hk : nameKeyTest k = true)
    (hf : objGet o "first" = JSVal.str f) (hl : objGet o "last" = JSVal.str l)
    (hguard : f ≠ "" ∨ l ≠ "")
    (hk1 : k ≠ "Homeowner Name") (hk2 : k ≠ "Homeowner First Name")
    (hk3 : k ≠ "Homeowner Last Name")
    (hc1 : dropQTag k ≠ "Homeowner Name") (hc2 : dropQTag k ≠ "Homeowner First Name")
    (hc3 : dropQTag k ≠ "Homeowner Last Name") :
    recGet (extractFormFields (pre ++ [(k, JSVal.obj o)])) "Homeowner Name"
      = JSVal.str (jsTrim (f ++ " " ++ l))
    ∧ recGet (extractFormFields (pre ++ [(k, JSVal.obj o)])) "Homeowner First Name"
      = JSVal.str f
    ∧ recGet (extractFormFields (pre ++ [(k, JSVal.obj o)])) "Homeowner Last Name"
      = JSVal.str l := by
  have hg : (truthy (JSVal.str f) || truthy (JSVal.str l)) = true := by
    rcases hguard with h | h <;> simp [truthy, h]
  rw [extractFormFields_append]
  simp only [processKey, hk, if_true, nameBranch, hf, hl, hg, jsOr_str_empty, jsToStr]
  by_cases hck : dropQTag k = k
  · rw [if_neg (not_not_intro hck)]
    refine ⟨?_, ?_, ?_⟩
    · rw [recGet_set_ne _ _ _ _ hk1,
        recGet_set_ne _ _ _ _ (by decide : ("Homeowner Last Name" : String) ≠ "Homeowner Name"),
        recGet_set_ne _ _ _ _ (by decide : ("Homeowner First Name" : String) ≠ "Homeowner Name")]
      exact recGet_set_self _ _ _
    · rw [recGet_set_ne _ _ _ _ hk2,
        recGet_set_ne _ _ _ _
          (by decide : ("Homeowner Last Name" : String) ≠ "Homeowner First Name")]
      exact recGet_set_self _ _ _
    · rw [recGet_set_ne _ _ _ _ hk3]
      exact recGet_set_self _ _ _
  · rw [if_pos hck]
    refine ⟨?_, ?_, ?_⟩
    · rw [recGet_set_ne _ _ _ _ hc1, recGet_set_ne _ _ _ _ hk1,
        recGet_set_ne _ _ _ _ (by decide : ("Homeowner Last Name" : String) ≠ "Homeowner Name"),
        recGet_set_ne _ _ _ _ (by decide : ("Homeowner First Name" : String) ≠ "Homeowner Name")]
      exact recGet_set_self _ _ _
    · rw [recGet_set_ne _ _ _ _ hc2, recGet_set_ne _ _ _ _ hk2,
        recGet_set_ne _ _ _ _
          (by decide : ("Homeowner Last Name" : String) ≠ "Homeowner First Name")]
      exact recGet_set_self _ _ _
    · rw [recGet_set_ne _ _ _ _ hc3, recGet_set_ne _ _ _ _ hk3]
      exact recGet_set_self _ _ _

/-- Claim C3 amended witness: the name object
`⟨first: Jane, last: Doe⟩` under `q3_yourName` normalizes to
`Jane Doe` with the parts retained separately. -/
theorem claim_C3_amended_name_object_joined_witness :
    recGet (extractFormFields
        [("q3_yourName", JSVal.obj [("first", JSVal.str "Jane"), ("last", JSVal.str "Doe")])])
      "Homeowner Name" = JSVal.str "Jane Doe"
    ∧ recGet (extractFormFields
        [("q3_yourName", JSVal.obj [("first", JSVal.str "Jane"), ("last", JSVal.str "Doe")])])
      "Homeowner First Name" = JSVal.str "Jane"
    ∧ recGet (extractFormFields
        [("q3_yourName", JSVal.obj [("first", JSVal.str "Jane"), ("last", JSVal.str "Doe")])])
      "Homeowner Last Name" = JSVal.str "Doe" :=
  claim_C3_amended_name_object_joined [] "q3_yourName" "Jane" "Doe"
    [("first", JSVal.str "Jane"), ("last", JSVal.str "Doe")]
    (by decide) rfl rfl (Or.inl (by decide))
    (by decide) (by decide) (by decide) (by decide) (by decide) (by decide)

/-- An address part as seen through the extractor: either present as
the string `x`, or absent (`undefined`) with `x` the empty string. -/
def addrPart (v : JSVal) (x : String) : Prop :=
  v = JSVal.str x ∨ (v = JSVal.undef ∧ x = "")

/-- The conditional push of one address part equals the corresponding
filter step on its string representation. -/
theorem addrPart_piece (v : JSVal) (x : String) (h : addrPart v x) :
    (if truthy v then [jsToStr v] else [])
      = (if truthy (JSVal.str x) then [jsToStr (JSVal.str x)] else []) := by
  rcases h with h | ⟨hv, hx⟩
  · rw [h]
  · rw [hv, hx]
    simp [truthy]

/-- One filter step over non-empty strings matches one conditional
address-part push. -/
theorem cons_filter_ne (x : String) (t : List String) :
    List.filter (fun y => y ≠ "") (x :: t)
      = (if truthy (JSVal.str x) then [jsToStr (JSVal.str x)] else [])
        ++ List.filter (fun y => y ≠ "") t := by
  by_cases h : x = "" <;> simp [truthy, jsToStr, List.filter, h]

/-- Claim C4 counterexample: a submission containing the address-object
key `q1_address: ⟨city: Denver, state: CO⟩` and the later raw key
`Project Address: Evil St` ends with `Project Address = Evil St`, not
`Denver, CO` — the verbatim passthrough copy of the later key
overwrites the canonical value. -/
theorem claim_C4_counterexample :
    recGet (extractFormFields
        [("q1_address", JSVal.obj [("city", JSVal.str "Denver"), ("state", JSVal.str "CO")]),
         ("Project Address", JSVal.str "Evil St")])
      "Project Address" = JSVal.str "Evil St"
    ∧ recGet (extractFormFields
        [("q1_address", JSVal.obj [("city", JSVal.str "Denver"), ("state", JSVal.str "CO")]),
         ("Project Address", JSVal.str "Evil St")])
      "Project Address" ≠ JSVal.str "Denver, CO" := by
  refine ⟨rfl, fun h => ?_⟩
  injection h with h2
  exact absurd h2 (by decide)

/-- Claim C4 amended: when the last-enumerated key matches the address
conventions (and none of the earlier-tested name/email/phone
conventions), carries an object whose `addr_line1`, `addr_line2`,
`city`, `state`, `postal` parts are strings or absent, and neither the
key nor its de-prefixed form collides with `Project Address`, the
output has `Project Address` equal to the `', '`-joined concatenation
of exactly the non-empty parts in that fixed order; in particular an
object with only `city` and `state` yields `city, state` with no
leading or trailing separator artifacts.  Without the last-key and
no-collision provisos a later key's passthrough copy can overwrite the
field. -/
theorem claim_C4_amended_address_object_joined (pre : List (String × JSVal)) (k : String)
    (o : List (String × JSVal)) (a1 a2 c s p : String)
    (hk : addressKeyTest k = true)
    (hname : nameKeyTest k = false) (hemail : emailKeyTest k = false)
    (hphone : phoneKeyTest k = false)
    (h1 : addrPart (objGet o "addr_line1") a1) (h2 : addrPart (objGet o "addr_line2") a2)
    (h3 : addrPart (objGet o "city") c) (h4 : addrPart (objGet o "state") s)
    (h5 : addrPart (objGet o "postal") p)
    (hk1 : k ≠ "Project Address") (hc1 : dropQTag k ≠ "Project Address") :
    recGet (extractFormFields (pre ++ [(k, JSVal.obj o)])) "Project Address"
      = JSVal.str (joinSep ", " (List.filter (fun y => y ≠ "") [a1, a2, c, s, p])) := by
  have hparts :
      (if truthy (objGet o "addr_line1") then [jsToStr (objGet o "addr_line1")] else [])
      ++ (if truthy (objGet o "addr_line2") then [jsToStr (objGet o "addr_line2")] else [])
      ++ (if truthy (objGet o "city") then [jsToStr (objGet o "city")] else [])
      ++ (if truthy (objGet o "state") then [jsToStr (objGet o "state")] else [])
      ++ (if truthy (objGet o "postal") then [jsToStr (objGet o "postal")] else [])
        = List.filter (fun y => y ≠ "") [a1, a2, c, s, p] := by
    rw [addrPart_piece _ _ h1, addrPart_piece _ _ h2, addrPart_piece _ _ h3,
      addrPart_piece _ _ h4, addrPart_piece _ _ h5,
      cons_filter_ne a1, cons_filter_ne a2, cons_filter_ne c, cons_filter_ne s,
      cons_filter_ne p]
    simp [List.filter]
  rw [extractFormFields_append]
  simp only [processKey, hname, hemail, hphone, hk, Bool.false_eq_true, if_false, if_true,
    addressBranch]
  rw [hparts]
  by_cases hck : dropQTag k = k
  · rw [if_neg (not_not_intro hck), recGet_set_ne _ _ _ _ hk1]
    exact recGet_set_self _ _ _
  · rw [if_pos hck, recGet_set_ne _ _ _ _ hc1, recGet_set_ne _ _ _ _ hk1]
    exact recGet_set_self _ _ _

/-- Claim C4 amended witness: an address object with only `city` and
`state` populated normalizes to `Denver, CO` with no separator
artifacts. -/
theorem claim_C4_amended_address_object_joined_witness :
    recGet (extractFormFields
        [("q1_address", JSVal.obj [("city", JSVal.str "Denver"), ("state", JSVal.str "CO")])])
      "Project Address" = JSVal.str "Denver, CO" :=
  claim_C4_amended_address_object_joined [] "q1_address"
    [("city", JSVal.str "Denver"), ("state", JSVal.str "CO")] "" "" "Denver" "CO" ""
    (by decide) (by decide) (by decide) (by decide)
    (Or.inr ⟨rfl, rfl⟩) (Or.inr ⟨rfl, rfl⟩) (Or.inl rfl) (Or.inl rfl) (Or.inr ⟨rfl, rfl⟩)
    (by decide) (by decide)
